import Mathlib

/-
Shallow embedding of the go-backend-template REST service
(handlers, JWT issue/verify, bcrypt wrapper, localizer, dual
PostgreSQL/MongoDB storage) together with theorems checking the
natural-language specification against it.

Modelling conventions:
* time is in seconds (Nat), `time.Now()` becomes an explicit `now` argument;
* the HMAC-SHA256 signature of a JWT is idealized: a signed token records
  the secret it was signed with, and signature verification compares that
  secret with the secret of the verifier (an ideal unforgeable MAC);
* bcrypt is idealized as a collision-free salted one-way function: the hash
  records the salt drawn by `GenerateFromPassword` and the password, and
  `CompareHashAndPassword` recomputes with the stored salt and compares;
* a `gin.Context` value set by the JWT middleware is an `IDVal` (the
  dynamic type of the `user_id` claim: a JSON number for the PostgreSQL
  variant, a hex string for the MongoDB variant); `c.GetString` returns ""
  on a non-string value, as gin does;
* the GORM / mongo-driver queries are translated to list operations over
  an explicit store state, including the GORM soft-delete filter.
-/

namespace GoApi

/-- Dynamic value held by the user_id JWT claim / gin context key:
either a JSON number (PostgreSQL uint id) or a string (Mongo hex id). -/
inductive IDVal where
  | num (n : Nat)
  | str (s : String)
deriving DecidableEq, Repr

/-- gin Context.GetString: returns the stored value when it is a string,
and the zero value "" when the stored value has any other dynamic type. -/
def ginGetString : IDVal → String
  | .str s => s
  | .num _ => ""

/-- Idealized bcrypt hash: records the random salt drawn at hashing time
and the hashed password (collision-free one-way function model). -/
structure BHash where
  salt : Nat
  pwd : String
deriving DecidableEq, Repr

/-- Result of bcrypt.CompareHashAndPassword: nil error, the dedicated
mismatch error, or any other (malformed-hash) error. -/
inductive BcryptResult where
  | ok
  | mismatch
deriving DecidableEq, Repr

/-- bcrypt.GenerateFromPassword with an explicit salt argument standing
for the per-call random salt. -/
def bcryptGenerate (salt : Nat) (password : String) : BHash :=
  ⟨salt, password⟩

/-- bcrypt.CompareHashAndPassword: recomputes the hash of the candidate
password with the stored salt and compares with the stored hash. -/
def bcryptCompare (h : BHash) (password : String) : BcryptResult :=
  if bcryptGenerate h.salt password = h then .ok else .mismatch

/-- PasswordUtils.HashPassword (utils): wraps bcrypt.GenerateFromPassword. -/
def hashPassword (salt : Nat) (password : String) : BHash :=
  bcryptGenerate salt password

/-- PasswordUtils.VerifyPassword (utils): wraps bcrypt.CompareHashAndPassword;
the Go function returns the error unchanged (nil on success). -/
def verifyPassword (hashed : BHash) (password : String) : BcryptResult :=
  bcryptCompare hashed password

/-- JWT claims structure: user_id, email, username, role plus the
registered iat/nbf/exp numeric dates (seconds). -/
structure TokenClaims where
  userId : IDVal
  email : String
  username : String
  role : String
  issuedAt : Nat
  notBefore : Nat
  expiresAt : Nat
deriving DecidableEq, Repr

/-- Signed JWT: the claims plus an idealized HMAC signature, recorded as
the secret the token was signed with. -/
structure SignedToken where
  claims : TokenClaims
  macKey : String
deriving DecidableEq, Repr

/-- jwt.GenerateToken: claims carry iat = nbf = now and exp = now + 24h;
returns the signed token and the expiry instant. -/
def generateToken (secret : String) (userID : IDVal)
    (email username role : String) (now : Nat) : SignedToken × Nat :=
  let expirationTime := now + 24 * 3600
  (⟨⟨userID, email, username, role, now, now, expirationTime⟩, secret⟩,
   expirationTime)

/-- jwt.ValidateToken: parse succeeds when the signature matches the
secret, exp is in the future (now < exp) and nbf is not in the future
(nbf ≤ now), per golang-jwt v5 default validation with zero leeway. -/
def validateToken (secret : String) (tok : SignedToken) (now : Nat) :
    Option TokenClaims :=
  if tok.macKey = secret ∧ now < tok.claims.expiresAt ∧
      tok.claims.notBefore ≤ now then
    some tok.claims
  else
    none

/-- PostgreSQL user row (models.User), times in seconds; deletedAt models
the gorm.DeletedAt soft-delete column. -/
structure PGUser where
  id : Nat
  email : String
  username : String
  password : BHash
  firstName : String
  lastName : String
  role : String
  isActive : Bool
  createdAt : Nat
  updatedAt : Nat
  deletedAt : Option Nat
deriving DecidableEq, Repr

/-- MongoDB user document (models.UserMongo); the ObjectID is its
24-character lowercase hex rendering. -/
structure MongoUser where
  id : String
  email : String
  username : String
  password : BHash
  firstName : String
  lastName : String
  role : String
  isActive : Bool
  createdAt : Nat
  updatedAt : Nat
deriving DecidableEq, Repr

/-- State of the relational backend: stored rows plus the next value of
the serial primary-key sequence (sequences start at 1). -/
structure PGState where
  users : List PGUser
  nextId : Nat
deriving DecidableEq, Repr

/-- State of the document backend: stored documents plus a counter from
which the driver-generated ObjectIDs are drawn. -/
structure MongoState where
  users : List MongoUser
  nextOid : Nat
deriving DecidableEq, Repr

/-- Handler backend references: each is nil (none) or a connected store,
mirroring the mongoDB/postgresDB fields of the handler structs. -/
structure Backends where
  postgres : Option PGState
  mongo : Option MongoState
deriving DecidableEq, Repr

/-- Lowercase hex digit for a value below 16. -/
def hexDigitChar (k : Nat) : Char :=
  if k < 10 then Char.ofNat (48 + k) else Char.ofNat (87 + k)

/-- Big-endian hex rendering of n on d digits. -/
def hexCharsAux (n : Nat) : Nat → List Char
  | 0 => []
  | d + 1 => hexCharsAux (n / 16) d ++ [hexDigitChar (n % 16)]

/-- Driver-generated ObjectID for the k-th insert, rendered as the
24-character lowercase hex string primitive.ObjectID.Hex returns. -/
def oidFromNat (k : Nat) : String :=
  ⟨hexCharsAux k 24⟩

/-- Valid hexadecimal character (either case), as accepted by hex.Decode. -/
def isHexChar (c : Char) : Bool :=
  c.isDigit || (97 ≤ c.toNat && c.toNat ≤ 102) || (65 ≤ c.toNat && c.toNat ≤ 70)

/-- ASCII lowercasing of one character (total on the hex alphabet). -/
def hexLowerChar (c : Char) : Char :=
  if 65 ≤ c.toNat ∧ c.toNat ≤ 90 then Char.ofNat (c.toNat + 32) else c

/-- primitive.ObjectIDFromHex: requires a 24-character hex string; the
decoded id is identified with its canonical lowercase rendering, so hex
strings differing only in case decode to the same ObjectID. -/
def objectIdFromHex (s : String) : Option String :=
  if s.length = 24 ∧ s.toList.all isHexChar then
    some ⟨s.toList.map hexLowerChar⟩
  else
    none

/-- strconv.ParseUint(s, 10, 32) with the error discarded, as the
handlers do: syntax errors yield 0, range errors yield 2^32 - 1. -/
def parseUint32Go (s : String) : Nat :=
  if s.length ≠ 0 ∧ s.toList.all Char.isDigit then
    min (s.toList.foldl (fun a c => a * 10 + (c.toNat - 48)) 0) (2 ^ 32 - 1)
  else
    0

/-- English translation table loaded by Localizer.loadTranslations. -/
def enTable : List (String × String) :=
  [("welcome", "Welcome"),
   ("user_not_found", "User not found"),
   ("invalid_credentials", "Invalid credentials"),
   ("user_created", "User created successfully"),
   ("login_successful", "Login successful"),
   ("logout_successful", "Logout successful"),
   ("user_updated", "User updated successfully"),
   ("user_deleted", "User deleted successfully"),
   ("email_exists", "Email already exists"),
   ("username_exists", "Username already exists"),
   ("validation_error", "Validation error"),
   ("internal_error", "Internal server error"),
   ("unauthorized", "Unauthorized access"),
   ("forbidden", "Access forbidden"),
   ("not_found", "Resource not found"),
   ("bad_request", "Bad request")]

/-- Arabic translation table loaded by Localizer.loadTranslations. -/
def arTable : List (String × String) :=
  [("welcome", "أهلا وسهلا"),
   ("user_not_found", "المستخدم غير موجود"),
   ("invalid_credentials", "بيانات الاعتماد غير صحيحة"),
   ("user_created", "تم إنشاء المستخدم بنجاح"),
   ("login_successful", "تم تسجيل الدخول بنجاح"),
   ("logout_successful", "تم تسجيل الخروج بنجاح"),
   ("user_updated", "تم تحديث المستخدم بنجاح"),
   ("user_deleted", "تم حذف المستخدم بنجاح"),
   ("email_exists", "البريد الإلكتروني موجود بالفعل"),
   ("username_exists", "اسم المستخدم موجود بالفعل"),
   ("validation_error", "خطأ في التحقق"),
   ("internal_error", "خطأ في الخادم الداخلي"),
   ("unauthorized", "الوصول غير مصرح"),
   ("forbidden", "الوصول محظور"),
   ("not_found", "المورد غير موجود"),
   ("bad_request", "طلب خاطئ")]

/-- German translation table loaded by Localizer.loadTranslations. -/
def deTable : List (String × String) :=
  [("welcome", "Willkommen"),
   ("user_not_found", "Benutzer nicht gefunden"),
   ("invalid_credentials", "Ungültige Anmeldedaten"),
   ("user_created", "Benutzer erfolgreich erstellt"),
   ("login_successful", "Anmeldung erfolgreich"),
   ("logout_successful", "Abmeldung erfolgreich"),
   ("user_updated", "Benutzer erfolgreich aktualisiert"),
   ("user_deleted", "Benutzer erfolgreich gelöscht"),
   ("email_exists", "E-Mail bereits vorhanden"),
   ("username_exists", "Benutzername bereits vorhanden"),
   ("validation_error", "Validierungsfehler"),
   ("internal_error", "Interner Serverfehler"),
   ("unauthorized", "Nicht autorisierter Zugriff"),
   ("forbidden", "Zugriff verboten"),
   ("not_found", "Ressource nicht gefunden"),
   ("bad_request", "Fehlerhafte Anfrage")]

/-- Localizer: default language plus the loaded translation tables. -/
structure Localizer where
  defaultLanguage : String
  translations : List (String × List (String × String))
deriving DecidableEq, Repr

/-- Key lookup in one translation table. -/
def tableLookup (t : List (String × String)) (key : String) : Option String :=
  (t.find? (fun p => p.1 = key)).map (fun p => p.2)

/-- Localizer.Get: language table first, then the default-language table,
then the key itself verbatim. -/
def Localizer.get (loc : Localizer) (lang key : String) : String :=
  match (loc.translations.find? (fun p => p.1 = lang)).bind
      (fun p => tableLookup p.2 key) with
  | some text => text
  | none =>
    match (loc.translations.find? (fun p => p.1 = loc.defaultLanguage)).bind
        (fun p => tableLookup p.2 key) with
    | some text => text
    | none => key

/-- The localizer built by NewLocalizer with the default DEFAULT_LANGUAGE. -/
def defaultLocalizer : Localizer :=
  ⟨"en", [("en", enTable), ("ar", arTable), ("de", deTable)]⟩

/-- Public user fields (models.UserInfo). -/
structure UserInfo where
  id : IDVal
  email : String
  username : String
  firstName : String
  lastName : String
  role : String
  isActive : Bool
  createdAt : Nat
  updatedAt : Nat
deriving DecidableEq, Repr

/-- models.AuthResponse: token, public user fields, expiry instant. -/
structure AuthResponse where
  token : SignedToken
  user : UserInfo
  expiresAt : Nat
deriving DecidableEq, Repr

/-- models.Pagination metadata. -/
structure PaginationMeta where
  page : Nat
  pageSize : Nat
  total : Nat
  totalPage : Nat
deriving DecidableEq, Repr

/-- models.PaginatedResponse specialized to the user listing. -/
structure PaginatedUsers where
  data : List UserInfo
  pagination : PaginationMeta
deriving DecidableEq, Repr

/-- models.HealthResponse. -/
structure HealthResponse where
  status : String
  timestamp : Nat
  services : List (String × String)
  version : String
deriving DecidableEq, Repr

/-- Payload carried in the data field of an envelope. -/
inductive RespData where
  | auth (a : AuthResponse)
  | user (u : UserInfo)
  | page (p : PaginatedUsers)
  | health (h : HealthResponse)
deriving DecidableEq, Repr

/-- models.APIResponse: the uniform success/message/data/error envelope. -/
structure APIResponse where
  success : Bool
  message : String
  data : Option RespData
  error : Option String
deriving DecidableEq, Repr

/-- ResponseUtils.SuccessResponse. -/
def successResponse (message : String) (d : RespData) : APIResponse :=
  ⟨true, message, some d, none⟩

/-- ResponseUtils.ErrorResponse. -/
def errorResponse (message err : String) : APIResponse :=
  ⟨false, message, none, some err⟩

/-- An HTTP status code and the JSON envelope written for it. -/
structure HttpReply where
  status : Nat
  body : APIResponse
deriving DecidableEq, Repr

/-- Public fields of a PostgreSQL row (ID is the numeric surrogate key). -/
def pgUserInfo (u : PGUser) : UserInfo :=
  ⟨.num u.id, u.email, u.username, u.firstName, u.lastName, u.role,
   u.isActive, u.createdAt, u.updatedAt⟩

/-- Public fields of a MongoDB document (ID rendered via ObjectID.Hex). -/
def mongoUserInfo (u : MongoUser) : UserInfo :=
  ⟨.str u.id, u.email, u.username, u.firstName, u.lastName, u.role,
   u.isActive, u.createdAt, u.updatedAt⟩

/-- models.RegisterRequest after a successful ShouldBindJSON. -/
structure RegisterRequest where
  email : String
  username : String
  password : String
  firstName : String
  lastName : String
deriving DecidableEq, Repr

/-- models.LoginRequest after a successful ShouldBindJSON. -/
structure LoginRequest where
  email : String
  password : String
deriving DecidableEq, Repr

/-- models.UpdateUserRequest after a successful ShouldBindJSON; absent
JSON fields bind to the empty string. -/
structure UpdateUserRequest where
  firstName : String
  lastName : String
  email : String
deriving DecidableEq, Repr

/-- models.PaginationQuery after a successful ShouldBindQuery (the
bindings enforce page ≥ 1 and 1 ≤ page_size ≤ 100). -/
structure PaginationQuery where
  page : Nat
  pageSize : Nat
  sort : String
  search : String
deriving DecidableEq, Repr

/-- GORM registration pre-check: Where("email = ? OR username = ?")
followed by First, under the implicit soft-delete filter. -/
def pgFindByEmailOrUsername (s : PGState) (email username : String) :
    Option PGUser :=
  s.users.find? (fun u =>
    (u.email = email ∨ u.username = username) ∧ u.deletedAt = none)

/-- GORM Where("email = ?").First under the soft-delete filter. -/
def pgFindByEmail (s : PGState) (email : String) : Option PGUser :=
  s.users.find? (fun u => u.email = email ∧ u.deletedAt = none)

/-- GORM First(&user, id): primary-key lookup under the soft-delete filter. -/
def pgFindById (s : PGState) (i : Nat) : Option PGUser :=
  s.users.find? (fun u => u.id = i ∧ u.deletedAt = none)

/-- Mongo FindOne on the $or email/username filter used by Register. -/
def mongoFindByEmailOrUsername (m : MongoState) (email username : String) :
    Option MongoUser :=
  m.users.find? (fun u => u.email = email ∨ u.username = username)

/-- Mongo FindOne on the email filter used by Login. -/
def mongoFindByEmail (m : MongoState) (email : String) : Option MongoUser :=
  m.users.find? (fun u => u.email = email)

/-- Mongo FindOne on the _id filter. -/
def mongoFindById (m : MongoState) (oid : String) : Option MongoUser :=
  m.users.find? (fun u => u.id = oid)

/-- Row inserted by Register, PostgreSQL branch: serial id, hashed
password, role "user", isActive true, both timestamps now. -/
def pgNewUser (s : PGState) (req : RegisterRequest) (salt now : Nat) : PGUser :=
  ⟨s.nextId, req.email, req.username, hashPassword salt req.password,
   req.firstName, req.lastName, "user", true, now, now, none⟩

/-- Document inserted by Register, MongoDB branch, with the
driver-generated ObjectID assigned back. -/
def mongoNewUser (m : MongoState) (req : RegisterRequest) (salt now : Nat) :
    MongoUser :=
  ⟨oidFromNat m.nextOid, req.email, req.username, hashPassword salt req.password,
   req.firstName, req.lastName, "user", true, now, now⟩

/-- AuthHandler.Register, PostgreSQL branch: hash, pre-check, 409 on
conflict, otherwise Create (serial id), token, 201 envelope. -/
def registerPG (loc : Localizer) (secret lang : String) (s : PGState)
    (req : RegisterRequest) (salt now : Nat) : HttpReply × PGState :=
  match pgFindByEmailOrUsername s req.email req.username with
  | some _ =>
    (⟨409, errorResponse (loc.get lang "email_exists") "User already exists"⟩, s)
  | none =>
    let u := pgNewUser s req salt now
    let gen := generateToken secret (.num u.id) u.email u.username u.role now
    (⟨201, successResponse (loc.get lang "user_created")
        (.auth ⟨gen.1, pgUserInfo u, gen.2⟩)⟩,
     ⟨s.users ++ [u], s.nextId + 1⟩)

/-- AuthHandler.Register, MongoDB branch: hash, $or pre-check, 409 on
conflict, otherwise InsertOne (driver-generated ObjectID), token, 201. -/
def registerMongo (loc : Localizer) (secret lang : String) (m : MongoState)
    (req : RegisterRequest) (salt now : Nat) : HttpReply × MongoState :=
  match mongoFindByEmailOrUsername m req.email req.username with
  | some _ =>
    (⟨409, errorResponse (loc.get lang "email_exists") "User already exists"⟩, m)
  | none =>
    let u := mongoNewUser m req salt now
    let gen := generateToken secret (.str u.id) u.email u.username u.role now
    (⟨201, successResponse (loc.get lang "user_created")
        (.auth ⟨gen.1, mongoUserInfo u, gen.2⟩)⟩,
     ⟨m.users ++ [u], m.nextOid + 1⟩)

/-- AuthHandler.Register backend dispatch: PostgreSQL branch when the
postgres reference is non-nil, else the MongoDB branch when that
reference is non-nil, else the function returns without writing any
response (no c.JSON call is reached). -/
def register (loc : Localizer) (secret lang : String) (b : Backends)
    (req : RegisterRequest) (salt now : Nat) : Option HttpReply × Backends :=
  match b.postgres with
  | some s =>
    let r := registerPG loc secret lang s req salt now
    (some r.1, ⟨some r.2, b.mongo⟩)
  | none =>
    match b.mongo with
    | some m =>
      let r := registerMongo loc secret lang m req salt now
      (some r.1, ⟨none, some r.2⟩)
    | none => (none, b)

/-- AuthHandler.Login, PostgreSQL branch: email lookup, 401 if absent,
password check, 401 on mismatch, else token and 200. -/
def loginPG (loc : Localizer) (secret lang : String) (s : PGState)
    (req : LoginRequest) (now : Nat) : HttpReply :=
  match pgFindByEmail s req.email with
  | none =>
    ⟨401, errorResponse (loc.get lang "invalid_credentials") "Authentication failed"⟩
  | some u =>
    if verifyPassword u.password req.password ≠ .ok then
      ⟨401, errorResponse (loc.get lang "invalid_credentials") "Authentication failed"⟩
    else
      let gen := generateToken secret (.num u.id) u.email u.username u.role now
      ⟨200, successResponse (loc.get lang "login_successful")
          (.auth ⟨gen.1, pgUserInfo u, gen.2⟩)⟩

/-- AuthHandler.Login, MongoDB branch. -/
def loginMongo (loc : Localizer) (secret lang : String) (m : MongoState)
    (req : LoginRequest) (now : Nat) : HttpReply :=
  match mongoFindByEmail m req.email with
  | none =>
    ⟨401, errorResponse (loc.get lang "invalid_credentials") "Authentication failed"⟩
  | some u =>
    if verifyPassword u.password req.password ≠ .ok then
      ⟨401, errorResponse (loc.get lang "invalid_credentials") "Authentication failed"⟩
    else
      let gen := generateToken secret (.str u.id) u.email u.username u.role now
      ⟨200, successResponse (loc.get lang "login_successful")
          (.auth ⟨gen.1, mongoUserInfo u, gen.2⟩)⟩

/-- AuthHandler.Login backend dispatch (same fall-through as Register). -/
def login (loc : Localizer) (secret lang : String) (b : Backends)
    (req : LoginRequest) (now : Nat) : Option HttpReply :=
  match b.postgres with
  | some s => some (loginPG loc secret lang s req now)
  | none =>
    match b.mongo with
    | some m => some (loginMongo loc secret lang m req now)
    | none => none

/-- UserHandler.GetProfile, PostgreSQL branch: the user_id context string
goes through ParseUint (error discarded) and a primary-key lookup. -/
def getProfilePG (loc : Localizer) (s : PGState) (userID lang : String) :
    HttpReply :=
  match pgFindById s (parseUint32Go userID) with
  | none => ⟨404, errorResponse (loc.get lang "user_not_found") "User not found"⟩
  | some u =>
    ⟨200, successResponse "Profile retrieved successfully" (.user (pgUserInfo u))⟩

/-- UserHandler.GetProfile, MongoDB branch: ObjectIDFromHex then an _id
lookup; a malformed hex id yields 400. -/
def getProfileMongo (loc : Localizer) (m : MongoState) (userID lang : String) :
    HttpReply :=
  match objectIdFromHex userID with
  | none => ⟨400, errorResponse (loc.get lang "bad_request") "Invalid user ID format"⟩
  | some oid =>
    match mongoFindById m oid with
    | none => ⟨404, errorResponse (loc.get lang "user_not_found") "User not found"⟩
    | some u =>
      ⟨200, successResponse "Profile retrieved successfully" (.user (mongoUserInfo u))⟩

/-- UserHandler.GetProfile backend dispatch. -/
def getProfile (loc : Localizer) (b : Backends) (userID lang : String) :
    Option HttpReply :=
  match b.postgres with
  | some s => some (getProfilePG loc s userID lang)
  | none =>
    match b.mongo with
    | some m => some (getProfileMongo loc m userID lang)
    | none => none

/-- middleware.JWTAuth followed by UserHandler.GetProfile: on a valid
token the middleware stores the dynamic user_id claim in the context and
the handler reads it back with c.GetString. -/
def getProfileViaToken (loc : Localizer) (secret : String) (b : Backends)
    (tok : SignedToken) (now : Nat) (lang : String) : Option HttpReply :=
  match validateToken secret tok now with
  | none => some ⟨401, errorResponse "Invalid or expired token" "Authentication failed"⟩
  | some claims => getProfile loc b (ginGetString claims.userId) lang

/-- Field application of UpdateProfile, PostgreSQL branch (the three
conditional assignments followed by the UpdatedAt refresh). -/
def applyUpdatePG (u : PGUser) (req : UpdateUserRequest) (now : Nat) : PGUser :=
  let u1 := if req.firstName ≠ "" then { u with firstName := req.firstName } else u
  let u2 := if req.lastName ≠ "" then { u1 with lastName := req.lastName } else u1
  let u3 := if req.email ≠ "" then { u2 with email := req.email } else u2
  { u3 with updatedAt := now }

/-- Effect on a matched document of the $set update document built by
UpdateProfile, MongoDB branch: updated_at always, the three fields only
when supplied non-empty. -/
def applyUpdateMongo (u : MongoUser) (req : UpdateUserRequest) (now : Nat) :
    MongoUser :=
  let u1 := if req.firstName ≠ "" then { u with firstName := req.firstName } else u
  let u2 := if req.lastName ≠ "" then { u1 with lastName := req.lastName } else u1
  let u3 := if req.email ≠ "" then { u2 with email := req.email } else u2
  { u3 with updatedAt := now }

/-- GORM Save(&user): update of the row with the primary key of the record. -/
def pgSave (users : List PGUser) (u : PGUser) : List PGUser :=
  users.map (fun v => if v.id = u.id then u else v)

/-- UserHandler.UpdateProfile, PostgreSQL branch: ParseUint on the
user_id context string (error discarded), primary-key lookup, field
application, Save. -/
def updateProfilePG (loc : Localizer) (s : PGState)
    (userID : String) (req : UpdateUserRequest) (lang : String) (now : Nat) :
    HttpReply × PGState :=
  match pgFindById s (parseUint32Go userID) with
  | none =>
    (⟨404, errorResponse (loc.get lang "user_not_found") "User not found"⟩, s)
  | some u =>
    let u2 := applyUpdatePG u req now
    (⟨200, successResponse (loc.get lang "user_updated") (.user (pgUserInfo u2))⟩,
     ⟨pgSave s.users u2, s.nextId⟩)

/-- UserHandler.UpdateProfile, MongoDB branch: ObjectIDFromHex, UpdateOne
with the $set document (matching nothing is not an error), then FindOne
re-reads the document; 500 when the re-read finds nothing. -/
def updateProfileMongo (loc : Localizer) (m : MongoState)
    (userID : String) (req : UpdateUserRequest) (lang : String) (now : Nat) :
    HttpReply × MongoState :=
  match objectIdFromHex userID with
  | none =>
    (⟨400, errorResponse (loc.get lang "bad_request") "Invalid user ID format"⟩, m)
  | some oid =>
    let users2 := m.users.map (fun v =>
      if v.id = oid then applyUpdateMongo v req now else v)
    let m2 : MongoState := ⟨users2, m.nextOid⟩
    match mongoFindById m2 oid with
    | none =>
      (⟨500, errorResponse (loc.get lang "internal_error")
          "Failed to retrieve updated profile"⟩, m2)
    | some u =>
      (⟨200, successResponse (loc.get lang "user_updated") (.user (mongoUserInfo u))⟩,
       m2)

/-- UserHandler.UpdateProfile backend dispatch. -/
def updateProfile (loc : Localizer) (b : Backends) (userID : String)
    (req : UpdateUserRequest) (lang : String) (now : Nat) :
    Option HttpReply × Backends :=
  match b.postgres with
  | some s =>
    let r := updateProfilePG loc s userID req lang now
    (some r.1, ⟨some r.2, b.mongo⟩)
  | none =>
    match b.mongo with
    | some m =>
      let r := updateProfileMongo loc m userID req lang now
      (some r.1, ⟨none, some r.2⟩)
    | none => (none, b)

/-- Case-insensitive substring test: the semantics of ILIKE with a
pattern wrapped in percent signs, and of a metacharacter-free $regex
with the i option. -/
def strContainsCI (hay pat : String) : Bool :=
  decide (pat.toLower.toList <:+: hay.toLower.toList)

/-- Search filter of GetUsers, PostgreSQL branch: ILIKE over the four
name/email/username columns. -/
def pgSearchMatch (search : String) (u : PGUser) : Bool :=
  strContainsCI u.firstName search || strContainsCI u.lastName search ||
  strContainsCI u.email search || strContainsCI u.username search

/-- Search filter of GetUsers, MongoDB branch: case-insensitive $regex
over the same four fields (modelled for metacharacter-free terms). -/
def mongoSearchMatch (search : String) (u : MongoUser) : Bool :=
  strContainsCI u.firstName search || strContainsCI u.lastName search ||
  strContainsCI u.email search || strContainsCI u.username search

/-- Rows matching the GetUsers query, PostgreSQL branch: the soft-delete
filter always, the ILIKE filter only when a search term is given. -/
def pgMatched (s : PGState) (q : PaginationQuery) : List PGUser :=
  s.users.filter (fun u =>
    u.deletedAt = none ∧ (q.search = "" ∨ pgSearchMatch q.search u = true))

/-- Documents matching the GetUsers query, MongoDB branch. -/
def mongoMatched (m : MongoState) (q : PaginationQuery) : List MongoUser :=
  m.users.filter (fun u =>
    q.search = "" ∨ mongoSearchMatch q.search u = true)

/-- Insertion into a created_at-descending list. -/
def insertCreatedDesc (u : PGUser) : List PGUser → List PGUser
  | [] => [u]
  | v :: l =>
    if v.createdAt ≤ u.createdAt then u :: v :: l
    else v :: insertCreatedDesc u l

/-- Sort by created_at descending (the default ORDER BY of GetUsers). -/
def sortCreatedDesc : List PGUser → List PGUser
  | [] => []
  | u :: l => insertCreatedDesc u (sortCreatedDesc l)

/-- Ordering applied by GetUsers, PostgreSQL branch: created_at
descending by default; a caller-supplied sort token is handed to the
query layer unvalidated, so the produced order is backend-determined and
is modelled as the stored order. -/
def pgOrdered (sort : String) (l : List PGUser) : List PGUser :=
  if sort = "" then sortCreatedDesc l else l

/-- TotalPage computation of both GetUsers branches:
int((total + pageSize - 1) / pageSize). -/
def totalPageOf (total pageSize : Nat) : Nat :=
  (total + pageSize - 1) / pageSize

/-- Row window produced by OFFSET (page-1)*pageSize, LIMIT pageSize over
the ordered filtered rows, PostgreSQL branch. -/
def pgRows (s : PGState) (q : PaginationQuery) : List PGUser :=
  ((pgOrdered q.sort (pgMatched s q)).drop ((q.page - 1) * q.pageSize)).take
    q.pageSize

/-- Row window produced by SetSkip/SetLimit over the filtered documents,
MongoDB branch (no sort stage is applied). -/
def mongoRows (m : MongoState) (q : PaginationQuery) : List MongoUser :=
  ((mongoMatched m q).drop ((q.page - 1) * q.pageSize)).take q.pageSize

/-- UserHandler.GetUsers, PostgreSQL branch: count the filtered rows,
then apply OFFSET (page-1)*pageSize and LIMIT pageSize to the ordered
rows; totalPage is the integer ceiling division. -/
def getUsersPG (loc : Localizer) (s : PGState) (q : PaginationQuery)
    (lang : String) : HttpReply :=
  ⟨200, successResponse "Users retrieved successfully"
    (.page ⟨(pgRows s q).map pgUserInfo,
      ⟨q.page, q.pageSize, (pgMatched s q).length,
       totalPageOf (pgMatched s q).length q.pageSize⟩⟩)⟩

/-- UserHandler.GetUsers, MongoDB branch: CountDocuments on the filter,
then Find with SetSkip and SetLimit. -/
def getUsersMongo (loc : Localizer) (m : MongoState) (q : PaginationQuery)
    (lang : String) : HttpReply :=
  ⟨200, successResponse "Users retrieved successfully"
    (.page ⟨(mongoRows m q).map mongoUserInfo,
      ⟨q.page, q.pageSize, (mongoMatched m q).length,
       totalPageOf (mongoMatched m q).length q.pageSize⟩⟩)⟩

/-- UserHandler.GetUsers backend dispatch. -/
def getUsers (loc : Localizer) (b : Backends) (q : PaginationQuery)
    (lang : String) : Option HttpReply :=
  match b.postgres with
  | some s => some (getUsersPG loc s q lang)
  | none =>
    match b.mongo with
    | some m => some (getUsersMongo loc m q lang)
    | none => none

/-- HealthHandler.HealthCheck: each configured backend reference is
checked; the argument some b records a configured backend whose
HealthCheck ping returned b; none records an unconfigured backend. -/
def healthCheck (pg mo : Option Bool) (now : Nat) : HttpReply :=
  let pgServices : List (String × String) :=
    match pg with
    | none => []
    | some true => [("postgresql", "healthy")]
    | some false => [("postgresql", "unhealthy")]
  let moServices : List (String × String) :=
    match mo with
    | none => []
    | some true => [("mongodb", "healthy")]
    | some false => [("mongodb", "unhealthy")]
  let overallStatus := if pg = some false ∨ mo = some false
    then "unhealthy" else "healthy"
  if overallStatus = "healthy" then
    ⟨200, successResponse "System is healthy"
      (.health ⟨overallStatus, now, pgServices ++ moServices, "1.0.0"⟩)⟩
  else
    ⟨503, errorResponse "System is unhealthy" "One or more services are down"⟩

/-
Helper lemmas shared by the claim theorems.
-/

/-- The sequential conditional assignments of UpdateProfile are the
record update that keeps every unsupplied field. -/
theorem applyUpdatePG_eq (u : PGUser) (req : UpdateUserRequest) (now : Nat) :
    applyUpdatePG u req now =
      { u with
        firstName := if req.firstName = "" then u.firstName else req.firstName,
        lastName := if req.lastName = "" then u.lastName else req.lastName,
        email := if req.email = "" then u.email else req.email,
        updatedAt := now } := by
  unfold applyUpdatePG
  by_cases h1 : req.firstName = "" <;> by_cases h2 : req.lastName = "" <;>
    by_cases h3 : req.email = "" <;> simp [h1, h2, h3]

/-- Mongo counterpart of the update record equation. -/
theorem applyUpdateMongo_eq (u : MongoUser) (req : UpdateUserRequest) (now : Nat) :
    applyUpdateMongo u req now =
      { u with
        firstName := if req.firstName = "" then u.firstName else req.firstName,
        lastName := if req.lastName = "" then u.lastName else req.lastName,
        email := if req.email = "" then u.email else req.email,
        updatedAt := now } := by
  unfold applyUpdateMongo
  by_cases h1 : req.firstName = "" <;> by_cases h2 : req.lastName = "" <;>
    by_cases h3 : req.email = "" <;> simp [h1, h2, h3]

/-- The update application never touches the primary key. -/
theorem applyUpdatePG_id (u : PGUser) (req : UpdateUserRequest) (now : Nat) :
    (applyUpdatePG u req now).id = u.id := by
  rw [applyUpdatePG_eq]

/-- The update application never touches the ObjectID. -/
theorem applyUpdateMongo_id (u : MongoUser) (req : UpdateUserRequest) (now : Nat) :
    (applyUpdateMongo u req now).id = u.id := by
  rw [applyUpdateMongo_eq]

/-- Re-reading by _id after UpdateOne returns the updated first match. -/
theorem mongoFind_map_update (oid : String) (req : UpdateUserRequest)
    (now : Nat) (l : List MongoUser) (w : MongoUser)
    (h : l.find? (fun u => u.id = oid) = some w) :
    (l.map (fun v => if v.id = oid then applyUpdateMongo v req now else v)).find?
      (fun u => u.id = oid) = some (applyUpdateMongo w req now) := by
  induction l with
  | nil => simp at h
  | cons v l ih =>
    by_cases hv : v.id = oid
    · simp only [List.find?_cons, decide_eq_true hv, if_pos hv, List.map_cons] at h ⊢
      rw [Option.some.injEq] at h
      subst h
      simp [applyUpdateMongo_id, hv]
    · simp only [List.find?_cons, List.map_cons, if_neg hv] at h ⊢
      rw [decide_eq_false hv] at h
      simp only [Bool.false_eq_true, if_neg, decide_eq_false hv] at h ⊢
      exact ih h

/-- Inserting into the descending order is a permutation of prepending. -/
theorem insertCreatedDesc_perm (u : PGUser) (l : List PGUser) :
    (insertCreatedDesc u l).Perm (u :: l) := by
  induction l with
  | nil => exact List.Perm.refl _
  | cons v l ih =>
    unfold insertCreatedDesc
    by_cases hv : v.createdAt ≤ u.createdAt
    · rw [if_pos hv]
    · rw [if_neg hv]
      exact (ih.cons v).trans (List.Perm.swap u v l)

/-- The default ordering of GetUsers permutes the filtered rows. -/
theorem sortCreatedDesc_perm (l : List PGUser) :
    (sortCreatedDesc l).Perm l := by
  induction l with
  | nil => exact List.Perm.refl _
  | cons u l ih =>
    unfold sortCreatedDesc
    exact (insertCreatedDesc_perm u (sortCreatedDesc l)).trans (ih.cons u)

/-- Integer ceiling characterization of the totalPage computation. -/
theorem totalPageOf_bounds (total ps : Nat) (hps : 1 ≤ ps) :
    total ≤ totalPageOf total ps * ps ∧ totalPageOf total ps * ps < total + ps := by
  constructor
  · unfold totalPageOf
    rcases total with _ | t
    · exact Nat.zero_le _
    · have hpos : 0 < ps := hps
      have e : t + 1 + ps - 1 = t + ps := by omega
      rw [e, Nat.add_div_right t hpos, Nat.add_mul, Nat.one_mul]
      have key : t = t / ps * ps + t % ps := by
        rw [Nat.mul_comm]
        exact (Nat.div_add_mod t ps).symm
      have h2 : t % ps < ps := Nat.mod_lt t hpos
      linarith
  · unfold totalPageOf
    have h1 : (total + ps - 1) / ps * ps ≤ total + ps - 1 :=
      Nat.div_mul_le_self _ _
    omega

/-- C9: for every password p and salt, verifying p against the hash of p
succeeds, and for distinct passwords p1 ≠ p2 verifying p2 against the
hash of p1 yields the mismatch result (not an error), for any salts. -/
theorem c9_hash_verify_roundtrip (salt salt2 : Nat) (p p1 p2 : String)
    (h : p1 ≠ p2) :
    verifyPassword (hashPassword salt p) p = .ok ∧
    verifyPassword (hashPassword salt2 p1) p2 = .mismatch := by
  constructor
  · simp [verifyPassword, hashPassword, bcryptCompare, bcryptGenerate]
  · unfold verifyPassword hashPassword bcryptCompare bcryptGenerate
    rw [if_neg]
    intro hh
    exact h (congrArg BHash.pwd hh).symm

/-- Witness for C9 at concrete salts and passwords. -/
theorem c9_hash_verify_roundtrip_witness :
    ("aaa" : String) ≠ "bbb" ∧
    verifyPassword (hashPassword 0 "abc") "abc" = .ok ∧
    verifyPassword (hashPassword 1 "aaa") "bbb" = .mismatch :=
  ⟨by decide,
   (c9_hash_verify_roundtrip 0 1 "abc" "aaa" "bbb" (by decide)).1,
   (c9_hash_verify_roundtrip 0 1 "abc" "aaa" "bbb" (by decide)).2⟩

/-- C4: a token issued at t carries claims with issuedAt = notBefore = t
and expiresAt = t + 24h; verification with the same secret succeeds
strictly before expiry and fails from expiry onwards. -/
theorem c4_token_claims_window (secret : String) (uid : IDVal)
    (email username role : String) (t now1 now2 : Nat)
    (h1 : t ≤ now1) (h2 : now1 < t + 24 * 3600) (h3 : t + 24 * 3600 ≤ now2) :
    (generateToken secret uid email username role t).1.claims =
      ⟨uid, email, username, role, t, t, t + 24 * 3600⟩ ∧
    (generateToken secret uid email username role t).2 = t + 24 * 3600 ∧
    validateToken secret (generateToken secret uid email username role t).1 now1 =
      some ⟨uid, email, username, role, t, t, t + 24 * 3600⟩ ∧
    validateToken secret (generateToken secret uid email username role t).1 now2 =
      none := by
  refine ⟨rfl, rfl, ?_, ?_⟩
  · simp [validateToken, generateToken, h1, h2]
  · simp [validateToken, generateToken, Nat.not_lt.mpr h3]

/-- Witness for C4: issuance at 0, success at 23h59m, failure at 24h1m. -/
theorem c4_token_claims_window_witness :
    (0 : Nat) ≤ 86340 ∧ (86340 : Nat) < 0 + 24 * 3600 ∧
    (0 : Nat) + 24 * 3600 ≤ 86460 ∧
    validateToken "k" (generateToken "k" (.str "u1") "e" "n" "user" 0).1 86340 =
      some ⟨.str "u1", "e", "n", "user", 0, 0, 0 + 24 * 3600⟩ ∧
    validateToken "k" (generateToken "k" (.str "u1") "e" "n" "user" 0).1 86460 =
      none :=
  ⟨by omega, by omega, by omega,
   (c4_token_claims_window "k" (.str "u1") "e" "n" "user" 0 86340 86460
     (by omega) (by omega) (by omega)).2.2.1,
   (c4_token_claims_window "k" (.str "u1") "e" "n" "user" 0 86340 86460
     (by omega) (by omega) (by omega)).2.2.2⟩

/-- C8: with neither storage adapter configured, the dispatching
handlers reach no branch that writes a response: they produce none and
leave the (empty) backend state unchanged. -/
theorem c8_no_backend_silent_noop (loc : Localizer) (secret lang uid : String)
    (req : RegisterRequest) (lreq : LoginRequest) (ureq : UpdateUserRequest)
    (q : PaginationQuery) (salt now : Nat) :
    register loc secret lang ⟨none, none⟩ req salt now = (none, ⟨none, none⟩) ∧
    login loc secret lang ⟨none, none⟩ lreq now = none ∧
    getProfile loc ⟨none, none⟩ uid lang = none ∧
    updateProfile loc ⟨none, none⟩ uid ureq lang now = (none, ⟨none, none⟩) ∧
    getUsers loc ⟨none, none⟩ q lang = none :=
  ⟨rfl, rfl, rfl, rfl, rfl⟩

/-- C7: the health endpoint answers 200 with overall status healthy
exactly when every configured backend check succeeds, and 503 exactly
when at least one configured backend check fails; in particular one
failure out of two configured backends yields 503. -/
theorem c7_health_all_configured (pg mo : Option Bool) (now : Nat) :
    ((healthCheck pg mo now).status = 200 ↔
      (∀ b, pg = some b → b = true) ∧ (∀ b, mo = some b → b = true)) ∧
    ((healthCheck pg mo now).status = 503 ↔
      (pg = some false ∨ mo = some false)) ∧
    ((healthCheck pg mo now).status = 200 →
      ∃ hr : HealthResponse,
        (healthCheck pg mo now).body =
          successResponse "System is healthy" (.health hr) ∧
        hr.status = "healthy") ∧
    ((healthCheck pg mo now).status = 503 →
      (healthCheck pg mo now).body =
        errorResponse "System is unhealthy" "One or more services are down") ∧
    (healthCheck (some true) (some false) now).status = 503 ∧
    (healthCheck (some false) (some true) now).status = 503 ∧
    (healthCheck (some true) (some true) now).status = 200 := by
  rcases pg with _ | (_ | _) <;> rcases mo with _ | (_ | _) <;>
    simp [healthCheck, successResponse, errorResponse]

/-- Witness for C7 at a configured, one-failing pair of backends. -/
theorem c7_health_all_configured_witness :
    ((healthCheck (some true) (some false) 7).status = 503 ↔
      (some true = some false ∨ some false = some false)) ∧
    (healthCheck (some true) (some false) 7).status = 503 :=
  ⟨(c7_health_all_configured (some true) (some false) 7).2.1,
   (c7_health_all_configured (some true) (some false) 7).2.2.2.2.1⟩

/-- C3: a login with an unknown email and a login with a stored email
but a wrong password yield the very same 401 reply, in both backend
variants: the envelope content cannot distinguish the two causes. -/
theorem c3_login_content_indistinguishable (loc : Localizer)
    (secret lang : String) (s : PGState) (m : MongoState)
    (r1 r2 r3 r4 : LoginRequest) (u : PGUser) (w : MongoUser)
    (now1 now2 : Nat)
    (hp1 : pgFindByEmail s r1.email = none)
    (hp2 : pgFindByEmail s r2.email = some u)
    (hp3 : verifyPassword u.password r2.password ≠ .ok)
    (hm1 : mongoFindByEmail m r3.email = none)
    (hm2 : mongoFindByEmail m r4.email = some w)
    (hm3 : verifyPassword w.password r4.password ≠ .ok) :
    ∃ reply : HttpReply, reply.status = 401 ∧
      login loc secret lang ⟨some s, none⟩ r1 now1 = some reply ∧
      login loc secret lang ⟨some s, none⟩ r2 now2 = some reply ∧
      login loc secret lang ⟨none, some m⟩ r3 now1 = some reply ∧
      login loc secret lang ⟨none, some m⟩ r4 now2 = some reply := by
  refine ⟨⟨401, errorResponse (loc.get lang "invalid_credentials")
    "Authentication failed"⟩, rfl, ?_, ?_, ?_, ?_⟩
  · simp [login, loginPG, hp1]
  · simp [login, loginPG, hp2, hp3]
  · simp [login, loginMongo, hm1]
  · simp [login, loginMongo, hm2, hm3]

/-- Concrete data for the C3 witness: one stored user per backend. -/
def c3PGUser : PGUser :=
  ⟨1, "alice@example.com", "alice", ⟨0, "secret1"⟩, "Alice", "Doe",
   "user", true, 0, 0, none⟩

/-- Concrete Mongo user for the C3 witness. -/
def c3MongoUser : MongoUser :=
  ⟨oidFromNat 0, "alice@example.com", "alice", ⟨0, "secret1"⟩, "Alice",
   "Doe", "user", true, 0, 0⟩

/-- Witness for C3: unknown email vs wrong password on singleton stores. -/
theorem c3_login_content_indistinguishable_witness :
    ∃ reply : HttpReply, reply.status = 401 ∧
      login defaultLocalizer "k" "en" ⟨some ⟨[c3PGUser], 2⟩, none⟩
        ⟨"nobody@example.com", "whatever1"⟩ 5 = some reply ∧
      login defaultLocalizer "k" "en" ⟨some ⟨[c3PGUser], 2⟩, none⟩
        ⟨"alice@example.com", "wrong1"⟩ 6 = some reply ∧
      login defaultLocalizer "k" "en" ⟨none, some ⟨[c3MongoUser], 1⟩⟩
        ⟨"nobody@example.com", "whatever1"⟩ 5 = some reply ∧
      login defaultLocalizer "k" "en" ⟨none, some ⟨[c3MongoUser], 1⟩⟩
        ⟨"alice@example.com", "wrong1"⟩ 6 = some reply :=
  c3_login_content_indistinguishable defaultLocalizer "k" "en"
    ⟨[c3PGUser], 2⟩ ⟨[c3MongoUser], 1⟩
    ⟨"nobody@example.com", "whatever1"⟩ ⟨"alice@example.com", "wrong1"⟩
    ⟨"nobody@example.com", "whatever1"⟩ ⟨"alice@example.com", "wrong1"⟩
    c3PGUser c3MongoUser 5 6
    (by decide) (by decide) (by decide) (by decide) (by decide) (by decide)

/-- C2: registration answers 409 and leaves the store untouched exactly
when the pre-check finds a user with the same email or username; the
insert happens only on a clean pre-check, and a second registration
reusing the email of a fresh registration (with a different username)
gets 409, changes nothing, and leaves a single record with that email;
both backend variants behave this way. -/
theorem c2_register_conflict_no_duplicate (loc : Localizer)
    (secret lang : String) (salt now salt2 now2 : Nat)
    (s1 s2 : PGState) (rc ra rb : RegisterRequest) (cu : PGUser)
    (m1 m2 : MongoState) (mc ma mb : RegisterRequest) (cw : MongoUser)
    (hc : pgFindByEmailOrUsername s1 rc.email rc.username = some cu)
    (ha : pgFindByEmailOrUsername s2 ra.email ra.username = none)
    (hb1 : rb.email = ra.email) (hb2 : rb.username ≠ ra.username)
    (hmc : mongoFindByEmailOrUsername m1 mc.email mc.username = some cw)
    (hma : mongoFindByEmailOrUsername m2 ma.email ma.username = none)
    (hmb1 : mb.email = ma.email) (hmb2 : mb.username ≠ ma.username) :
    register loc secret lang ⟨some s1, none⟩ rc salt now =
      (some ⟨409, errorResponse (loc.get lang "email_exists")
          "User already exists"⟩, ⟨some s1, none⟩) ∧
    (∃ body, (register loc secret lang ⟨some s2, none⟩ ra salt now).1 =
      some ⟨201, body⟩) ∧
    (register loc secret lang ⟨some s2, none⟩ ra salt now).2 =
      ⟨some ⟨s2.users ++ [pgNewUser s2 ra salt now], s2.nextId + 1⟩, none⟩ ∧
    register loc secret lang
        ⟨some ⟨s2.users ++ [pgNewUser s2 ra salt now], s2.nextId + 1⟩, none⟩
        rb salt2 now2 =
      (some ⟨409, errorResponse (loc.get lang "email_exists")
          "User already exists"⟩,
       ⟨some ⟨s2.users ++ [pgNewUser s2 ra salt now], s2.nextId + 1⟩, none⟩) ∧
    (s2.users ++ [pgNewUser s2 ra salt now]).filter
        (fun u => u.email = ra.email ∧ u.deletedAt = none) =
      [pgNewUser s2 ra salt now] ∧
    register loc secret lang ⟨none, some m1⟩ mc salt now =
      (some ⟨409, errorResponse (loc.get lang "email_exists")
          "User already exists"⟩, ⟨none, some m1⟩) ∧
    (∃ body, (register loc secret lang ⟨none, some m2⟩ ma salt now).1 =
      some ⟨201, body⟩) ∧
    (register loc secret lang ⟨none, some m2⟩ ma salt now).2 =
      ⟨none, some ⟨m2.users ++ [mongoNewUser m2 ma salt now], m2.nextOid + 1⟩⟩ ∧
    register loc secret lang
        ⟨none, some ⟨m2.users ++ [mongoNewUser m2 ma salt now], m2.nextOid + 1⟩⟩
        mb salt2 now2 =
      (some ⟨409, errorResponse (loc.get lang "email_exists")
          "User already exists"⟩,
       ⟨none, some ⟨m2.users ++ [mongoNewUser m2 ma salt now], m2.nextOid + 1⟩⟩) ∧
    (m2.users ++ [mongoNewUser m2 ma salt now]).filter
        (fun u => u.email = ma.email) = [mongoNewUser m2 ma salt now] := by
  refine ⟨?_, ?_, ?_, ?_, ?_, ?_, ?_, ?_, ?_, ?_⟩
  · simp [register, registerPG, hc]
  · simp only [register, registerPG, ha]
    exact ⟨_, rfl⟩
  · simp [register, registerPG, ha]
  · cases heq : pgFindByEmailOrUsername
        ⟨s2.users ++ [pgNewUser s2 ra salt now], s2.nextId + 1⟩
        rb.email rb.username with
    | none =>
      exfalso
      unfold pgFindByEmailOrUsername at heq
      rw [List.find?_eq_none] at heq
      refine absurd ?_ (heq (pgNewUser s2 ra salt now)
        (List.mem_append_right _ (List.mem_singleton_self _)))
      simp [pgNewUser, hb1]
    | some cu2 => simp [register, registerPG, heq]
  · unfold pgFindByEmailOrUsername at ha
    rw [List.find?_eq_none] at ha
    rw [List.filter_append]
    have h0 : s2.users.filter
        (fun u => decide (u.email = ra.email ∧ u.deletedAt = none)) = [] := by
      rw [List.filter_eq_nil_iff]
      intro u hu
      have hna := ha u hu
      simp only [decide_eq_true_eq] at hna ⊢
      exact fun hp => hna ⟨Or.inl hp.1, hp.2⟩
    rw [h0]
    simp [pgNewUser]
  · simp [register, registerMongo, hmc]
  · simp only [register, registerMongo, hma]
    exact ⟨_, rfl⟩
  · simp [register, registerMongo, hma]
  · cases heq : mongoFindByEmailOrUsername
        ⟨m2.users ++ [mongoNewUser m2 ma salt now], m2.nextOid + 1⟩
        mb.email mb.username with
    | none =>
      exfalso
      unfold mongoFindByEmailOrUsername at heq
      rw [List.find?_eq_none] at heq
      refine absurd ?_ (heq (mongoNewUser m2 ma salt now)
        (List.mem_append_right _ (List.mem_singleton_self _)))
      simp [mongoNewUser, hmb1]
    | some cw2 => simp [register, registerMongo, heq]
  · unfold mongoFindByEmailOrUsername at hma
    rw [List.find?_eq_none] at hma
    rw [List.filter_append]
    have h0 : m2.users.filter (fun u => decide (u.email = ma.email)) = [] := by
      rw [List.filter_eq_nil_iff]
      intro u hu
      have hna := hma u hu
      simp only [decide_eq_true_eq] at hna ⊢
      exact fun hp => hna (Or.inl hp)
    rw [h0]
    simp [mongoNewUser]

/-- Concrete stored PostgreSQL user for the C2 witness. -/
def c2PGUser0 : PGUser :=
  ⟨1, "alice@example.com", "alice", ⟨0, "secret1"⟩, "Alice", "Doe",
   "user", true, 0, 0, none⟩

/-- Concrete stored Mongo user for the C2 witness. -/
def c2MongoUser0 : MongoUser :=
  ⟨oidFromNat 0, "alice@example.com", "alice", ⟨0, "secret1"⟩, "Alice",
   "Doe", "user", true, 0, 0⟩

/-- First registration of the C2 witness scenario. -/
def c2ra : RegisterRequest := ⟨"new@example.com", "newuser", "pw1234", "N", "U"⟩

/-- Second registration of the C2 witness scenario: same email,
different username. -/
def c2rb : RegisterRequest := ⟨"new@example.com", "other", "pw1234", "O", "T"⟩

/-- Fresh PostgreSQL store for the C2 witness. -/
def c2s2 : PGState := ⟨[], 1⟩

/-- Fresh Mongo store for the C2 witness. -/
def c2m2 : MongoState := ⟨[], 0⟩

/-- Witness for C2: the second registration with a reused email gets 409
and changes nothing, and exactly one record carries that email. -/
theorem c2_register_conflict_no_duplicate_witness :
    register defaultLocalizer "k" "en"
        ⟨some ⟨[pgNewUser c2s2 c2ra 0 10], 2⟩, none⟩ c2rb 1 11 =
      (some ⟨409, errorResponse (defaultLocalizer.get "en" "email_exists")
          "User already exists"⟩,
       ⟨some ⟨[pgNewUser c2s2 c2ra 0 10], 2⟩, none⟩) ∧
    ([pgNewUser c2s2 c2ra 0 10]).filter
        (fun u => u.email = c2ra.email ∧ u.deletedAt = none) =
      [pgNewUser c2s2 c2ra 0 10] ∧
    register defaultLocalizer "k" "en"
        ⟨none, some ⟨[mongoNewUser c2m2 c2ra 0 10], 1⟩⟩ c2rb 1 11 =
      (some ⟨409, errorResponse (defaultLocalizer.get "en" "email_exists")
          "User already exists"⟩,
       ⟨none, some ⟨[mongoNewUser c2m2 c2ra 0 10], 1⟩⟩) ∧
    ([mongoNewUser c2m2 c2ra 0 10]).filter (fun u => u.email = c2ra.email) =
      [mongoNewUser c2m2 c2ra 0 10] := by
  have h := c2_register_conflict_no_duplicate defaultLocalizer "k" "en" 0 10 1 11
    ⟨[c2PGUser0], 2⟩ c2s2 ⟨"alice@example.com", "bob", "pw1234", "B", "B"⟩
    c2ra c2rb c2PGUser0
    ⟨[c2MongoUser0], 1⟩ c2m2 ⟨"alice@example.com", "bob", "pw1234", "B", "B"⟩
    c2ra c2rb c2MongoUser0
    (by decide) (by decide) (by decide) (by decide)
    (by decide) (by decide) (by decide) (by decide)
  exact ⟨h.2.2.2.1, h.2.2.2.2.1, h.2.2.2.2.2.2.2.2.1, h.2.2.2.2.2.2.2.2.2⟩

/-- C6: update-profile rewrites exactly the supplied non-empty fields of
the stored user and refreshes updatedAt; an empty supplied field keeps
its prior value and every other stored field is untouched, in both
backend variants. -/
theorem c6_update_only_supplied_fields (loc : Localizer)
    (s : PGState) (m : MongoState) (uidP uidM : String)
    (req : UpdateUserRequest) (lang : String) (now : Nat)
    (u : PGUser) (w : MongoUser)
    (hP : pgFindById s (parseUint32Go uidP) = some u)
    (hOid : objectIdFromHex uidM = some w.id)
    (hM : mongoFindById m w.id = some w) :
    updateProfile loc ⟨some s, none⟩ uidP req lang now =
      (some ⟨200, successResponse (loc.get lang "user_updated")
          (.user (pgUserInfo (applyUpdatePG u req now)))⟩,
       ⟨some ⟨pgSave s.users (applyUpdatePG u req now), s.nextId⟩, none⟩) ∧
    updateProfile loc ⟨none, some m⟩ uidM req lang now =
      (some ⟨200, successResponse (loc.get lang "user_updated")
          (.user (mongoUserInfo (applyUpdateMongo w req now)))⟩,
       ⟨none, some ⟨m.users.map
          (fun v => if v.id = w.id then applyUpdateMongo v req now else v),
          m.nextOid⟩⟩) ∧
    applyUpdatePG u req now =
      { u with
        firstName := if req.firstName = "" then u.firstName else req.firstName,
        lastName := if req.lastName = "" then u.lastName else req.lastName,
        email := if req.email = "" then u.email else req.email,
        updatedAt := now } ∧
    applyUpdateMongo w req now =
      { w with
        firstName := if req.firstName = "" then w.firstName else req.firstName,
        lastName := if req.lastName = "" then w.lastName else req.lastName,
        email := if req.email = "" then w.email else req.email,
        updatedAt := now } := by
  refine ⟨?_, ?_, applyUpdatePG_eq u req now, applyUpdateMongo_eq w req now⟩
  · simp [updateProfile, updateProfilePG, hP]
  · unfold mongoFindById at hM
    have hupd := mongoFind_map_update w.id req now m.users w hM
    simp [updateProfile, updateProfileMongo, hOid, mongoFindById, hupd]

/-- Stored PostgreSQL user for the C6 witness. -/
def c6U : PGUser :=
  ⟨1, "carol@example.com", "carol", ⟨0, "secret1"⟩, "Carol", "Jones",
   "user", true, 0, 0, none⟩

/-- Stored Mongo user for the C6 witness. -/
def c6W : MongoUser :=
  ⟨oidFromNat 3, "carol@example.com", "carol", ⟨0, "secret1"⟩, "Carol",
   "Jones", "user", true, 0, 0⟩

/-- Witness for C6 at the specification example: an empty firstName with
lastName "Smith" changes only lastName (and updatedAt). -/
theorem c6_update_only_supplied_fields_witness :
    updateProfile defaultLocalizer ⟨some ⟨[c6U], 2⟩, none⟩ "1"
        ⟨"", "Smith", ""⟩ "en" 99 =
      (some ⟨200, successResponse (defaultLocalizer.get "en" "user_updated")
          (.user (pgUserInfo { c6U with lastName := "Smith", updatedAt := 99 }))⟩,
       ⟨some ⟨[{ c6U with lastName := "Smith", updatedAt := 99 }], 2⟩, none⟩) ∧
    applyUpdatePG c6U ⟨"", "Smith", ""⟩ 99 =
      { c6U with lastName := "Smith", updatedAt := 99 } ∧
    applyUpdateMongo c6W ⟨"", "Smith", ""⟩ 99 =
      { c6W with lastName := "Smith", updatedAt := 99 } := by
  have h := c6_update_only_supplied_fields defaultLocalizer ⟨[c6U], 2⟩
    ⟨[c6W], 4⟩ "1" (oidFromNat 3) ⟨"", "Smith", ""⟩ "en" 99 c6U c6W
    (by decide) (by decide) (by decide)
  exact ⟨h.1, h.2.2.1, h.2.2.2⟩

/-- C10: the update path performs no uniqueness pre-check on a supplied
email: updating the email of one user to the email of another stored user answers
200 and leaves the store with two distinct users carrying the same
email, in both backend variants. -/
theorem c10_update_email_no_uniqueness_check (loc : Localizer) (s : PGState)
    (m : MongoState) (uidP uidM lang : String) (now : Nat)
    (u1 u2 : PGUser) (w1 w2 : MongoUser)
    (hFind : pgFindById s (parseUint32Go uidP) = some u1)
    (hMem2 : u2 ∈ s.users) (hIdNe : u1.id ≠ u2.id)
    (hEmailNe : u1.email ≠ u2.email) (hEmail2 : u2.email ≠ "")
    (hOid : objectIdFromHex uidM = some w1.id)
    (hFindM : mongoFindById m w1.id = some w1)
    (hMemM2 : w2 ∈ m.users) (hIdNeM : w1.id ≠ w2.id)
    (hEmailNeM : w1.email ≠ w2.email) (hEmailM2 : w2.email ≠ "") :
    (∃ d, (updateProfile loc ⟨some s, none⟩ uidP ⟨"", "", u2.email⟩ lang now).1 =
      some ⟨200, d⟩) ∧
    (applyUpdatePG u1 ⟨"", "", u2.email⟩ now).email = u2.email ∧
    (∃ s2 : PGState,
      (updateProfile loc ⟨some s, none⟩ uidP ⟨"", "", u2.email⟩ lang now).2 =
        ⟨some s2, none⟩ ∧
      applyUpdatePG u1 ⟨"", "", u2.email⟩ now ∈ s2.users ∧ u2 ∈ s2.users ∧
      (applyUpdatePG u1 ⟨"", "", u2.email⟩ now).id ≠ u2.id) ∧
    (∃ d, (updateProfile loc ⟨none, some m⟩ uidM ⟨"", "", w2.email⟩ lang now).1 =
      some ⟨200, d⟩) ∧
    (applyUpdateMongo w1 ⟨"", "", w2.email⟩ now).email = w2.email ∧
    (∃ m2 : MongoState,
      (updateProfile loc ⟨none, some m⟩ uidM ⟨"", "", w2.email⟩ lang now).2 =
        ⟨none, some m2⟩ ∧
      applyUpdateMongo w1 ⟨"", "", w2.email⟩ now ∈ m2.users ∧ w2 ∈ m2.users ∧
      (applyUpdateMongo w1 ⟨"", "", w2.email⟩ now).id ≠ w2.id) := by
  have hu1mem : u1 ∈ s.users := by
    unfold pgFindById at hFind
    exact List.mem_of_find?_eq_some hFind
  have hw1mem : w1 ∈ m.users := by
    unfold mongoFindById at hFindM
    exact List.mem_of_find?_eq_some hFindM
  unfold mongoFindById at hFindM
  have hupd := mongoFind_map_update w1.id ⟨"", "", w2.email⟩ now m.users w1 hFindM
  refine ⟨?_, ?_, ?_, ?_, ?_, ?_⟩
  · simp only [updateProfile, updateProfilePG, hFind]
    exact ⟨_, rfl⟩
  · rw [applyUpdatePG_eq]
    simp [hEmail2]
  · refine ⟨⟨pgSave s.users (applyUpdatePG u1 ⟨"", "", u2.email⟩ now), s.nextId⟩,
      ?_, ?_, ?_, ?_⟩
    · simp [updateProfile, updateProfilePG, hFind, pgSave]
    · unfold pgSave
      refine List.mem_map.mpr ⟨u1, hu1mem, ?_⟩
      rw [if_pos (applyUpdatePG_id u1 ⟨"", "", u2.email⟩ now).symm]
    · unfold pgSave
      refine List.mem_map.mpr ⟨u2, hMem2, ?_⟩
      rw [if_neg]
      rw [applyUpdatePG_id]
      exact fun hh => hIdNe hh.symm
    · rw [applyUpdatePG_id]
      exact hIdNe
  · simp only [updateProfile, updateProfileMongo, hOid, mongoFindById, hupd]
    exact ⟨_, rfl⟩
  · rw [applyUpdateMongo_eq]
    simp [hEmailM2]
  · refine ⟨⟨m.users.map (fun v =>
        if v.id = w1.id then applyUpdateMongo v ⟨"", "", w2.email⟩ now else v),
        m.nextOid⟩, ?_, ?_, ?_, ?_⟩
    · simp [updateProfile, updateProfileMongo, hOid, mongoFindById, hupd]
    · refine List.mem_map.mpr ⟨w1, hw1mem, ?_⟩
      rw [if_pos rfl]
    · refine List.mem_map.mpr ⟨w2, hMemM2, ?_⟩
      rw [if_neg]
      exact fun hh => hIdNeM hh.symm
    · rw [applyUpdateMongo_id]
      exact hIdNeM

/-- First stored PostgreSQL user for the C10 witness. -/
def c10U1 : PGUser :=
  ⟨1, "a@example.com", "usera", ⟨0, "secret1"⟩, "A", "One", "user", true,
   0, 0, none⟩

/-- Second stored PostgreSQL user for the C10 witness. -/
def c10U2 : PGUser :=
  ⟨2, "b@example.com", "userb", ⟨0, "secret2"⟩, "B", "Two", "user", true,
   0, 0, none⟩

/-- First stored Mongo user for the C10 witness. -/
def c10W1 : MongoUser :=
  ⟨oidFromNat 1, "a@example.com", "usera", ⟨0, "secret1"⟩, "A", "One",
   "user", true, 0, 0⟩

/-- Second stored Mongo user for the C10 witness. -/
def c10W2 : MongoUser :=
  ⟨oidFromNat 2, "b@example.com", "userb", ⟨0, "secret2"⟩, "B", "Two",
   "user", true, 0, 0⟩

/-- Witness for C10: updating the email of the first user to that of the second
user succeeds with 200 and leaves two distinct users sharing
one email. -/
theorem c10_update_email_no_uniqueness_check_witness :
    (∃ d, (updateProfile defaultLocalizer ⟨some ⟨[c10U1, c10U2], 3⟩, none⟩ "1"
        ⟨"", "", c10U2.email⟩ "en" 50).1 = some ⟨200, d⟩) ∧
    (applyUpdatePG c10U1 ⟨"", "", c10U2.email⟩ 50).email = c10U2.email ∧
    (∃ s2 : PGState,
      (updateProfile defaultLocalizer ⟨some ⟨[c10U1, c10U2], 3⟩, none⟩ "1"
          ⟨"", "", c10U2.email⟩ "en" 50).2 = ⟨some s2, none⟩ ∧
      applyUpdatePG c10U1 ⟨"", "", c10U2.email⟩ 50 ∈ s2.users ∧
      c10U2 ∈ s2.users ∧
      (applyUpdatePG c10U1 ⟨"", "", c10U2.email⟩ 50).id ≠ c10U2.id) ∧
    (∃ d, (updateProfile defaultLocalizer ⟨none, some ⟨[c10W1, c10W2], 3⟩⟩
        (oidFromNat 1) ⟨"", "", c10W2.email⟩ "en" 50).1 = some ⟨200, d⟩) ∧
    (applyUpdateMongo c10W1 ⟨"", "", c10W2.email⟩ 50).email = c10W2.email ∧
    (∃ m2 : MongoState,
      (updateProfile defaultLocalizer ⟨none, some ⟨[c10W1, c10W2], 3⟩⟩
          (oidFromNat 1) ⟨"", "", c10W2.email⟩ "en" 50).2 = ⟨none, some m2⟩ ∧
      applyUpdateMongo c10W1 ⟨"", "", c10W2.email⟩ 50 ∈ m2.users ∧
      c10W2 ∈ m2.users ∧
      (applyUpdateMongo c10W1 ⟨"", "", c10W2.email⟩ 50).id ≠ c10W2.id) :=
  c10_update_email_no_uniqueness_check defaultLocalizer ⟨[c10U1, c10U2], 3⟩
    ⟨[c10W1, c10W2], 3⟩ "1" (oidFromNat 1) "en" 50 c10U1 c10U2 c10W1 c10W2
    (by decide) (by decide) (by decide) (by decide) (by decide)
    (by decide) (by decide) (by decide) (by decide) (by decide) (by decide)

/-- C5: in both variants the listing replies 200 with total = number of
users matching the search filter, totalPage the ceiling of total over
pageSize, and the rows the window of the (ordered) matching users at
offset (page-1)*pageSize of length at most pageSize. -/
theorem c5_list_users_pagination (loc : Localizer) (s : PGState)
    (m : MongoState) (q : PaginationQuery) (lang : String)
    (hp : 1 ≤ q.page) (hs : 1 ≤ q.pageSize) :
    getUsers loc ⟨some s, none⟩ q lang = some (getUsersPG loc s q lang) ∧
    getUsers loc ⟨none, some m⟩ q lang = some (getUsersMongo loc m q lang) ∧
    getUsersPG loc s q lang = ⟨200, successResponse
      "Users retrieved successfully"
      (.page ⟨(pgRows s q).map pgUserInfo,
        ⟨q.page, q.pageSize, (pgMatched s q).length,
         totalPageOf (pgMatched s q).length q.pageSize⟩⟩)⟩ ∧
    getUsersMongo loc m q lang = ⟨200, successResponse
      "Users retrieved successfully"
      (.page ⟨(mongoRows m q).map mongoUserInfo,
        ⟨q.page, q.pageSize, (mongoMatched m q).length,
         totalPageOf (mongoMatched m q).length q.pageSize⟩⟩)⟩ ∧
    pgRows s q = ((pgOrdered q.sort (pgMatched s q)).drop
      ((q.page - 1) * q.pageSize)).take q.pageSize ∧
    mongoRows m q = ((mongoMatched m q).drop
      ((q.page - 1) * q.pageSize)).take q.pageSize ∧
    (pgOrdered q.sort (pgMatched s q)).Perm (pgMatched s q) ∧
    (pgRows s q).length =
      min q.pageSize ((pgMatched s q).length - (q.page - 1) * q.pageSize) ∧
    (∀ u, u ∈ pgRows s q → u ∈ pgMatched s q) ∧
    (mongoRows m q).length =
      min q.pageSize ((mongoMatched m q).length - (q.page - 1) * q.pageSize) ∧
    (∀ u, u ∈ mongoRows m q → u ∈ mongoMatched m q) ∧
    (pgMatched s q).length ≤
      totalPageOf (pgMatched s q).length q.pageSize * q.pageSize ∧
    totalPageOf (pgMatched s q).length q.pageSize * q.pageSize <
      (pgMatched s q).length + q.pageSize ∧
    (mongoMatched m q).length ≤
      totalPageOf (mongoMatched m q).length q.pageSize * q.pageSize ∧
    totalPageOf (mongoMatched m q).length q.pageSize * q.pageSize <
      (mongoMatched m q).length + q.pageSize := by
  have hperm : (pgOrdered q.sort (pgMatched s q)).Perm (pgMatched s q) := by
    unfold pgOrdered
    by_cases hq : q.sort = ""
    · rw [if_pos hq]
      exact sortCreatedDesc_perm _
    · rw [if_neg hq]
  refine ⟨rfl, rfl, rfl, rfl, rfl, rfl, hperm, ?_, ?_, ?_, ?_,
    (totalPageOf_bounds _ _ hs).1, (totalPageOf_bounds _ _ hs).2,
    (totalPageOf_bounds _ _ hs).1, (totalPageOf_bounds _ _ hs).2⟩
  · simp [pgRows, hperm.length_eq]
  · intro u hu
    exact hperm.mem_iff.mp
      (List.mem_of_mem_drop (List.mem_of_mem_take hu))
  · simp [mongoRows]
  · intro u hu
    exact List.mem_of_mem_drop (List.mem_of_mem_take hu)

/-- The i-th of the 25 stored PostgreSQL users of the C5 witness. -/
def c5MkPG (i : Nat) : PGUser :=
  ⟨i + 1, "u@example.com", "user", ⟨0, "secret1"⟩, "U", "Ser", "user",
   true, 0, 0, none⟩

/-- The i-th of the 25 stored Mongo users of the C5 witness. -/
def c5MkMongo (i : Nat) : MongoUser :=
  ⟨oidFromNat i, "u@example.com", "user", ⟨0, "secret1"⟩, "U", "Ser",
   "user", true, 0, 0⟩

/-- PostgreSQL store with 25 users for the C5 witness. -/
def c5s : PGState := ⟨(List.range 25).map c5MkPG, 26⟩

/-- Mongo store with 25 users for the C5 witness. -/
def c5m : MongoState := ⟨(List.range 25).map c5MkMongo, 25⟩

/-- The C5 witness query: page 3, page size 10, no sort, no search. -/
def c5q : PaginationQuery := ⟨3, 10, "", ""⟩

/-- Witness for C5: 25 stored users, page 3 of size 10 gives 5 rows,
total 25 and totalPage 3, in both variants. -/
theorem c5_list_users_pagination_witness :
    (pgRows c5s c5q).length =
      min c5q.pageSize ((pgMatched c5s c5q).length -
        (c5q.page - 1) * c5q.pageSize) ∧
    (mongoRows c5m c5q).length =
      min c5q.pageSize ((mongoMatched c5m c5q).length -
        (c5q.page - 1) * c5q.pageSize) ∧
    (pgMatched c5s c5q).length ≤
      totalPageOf (pgMatched c5s c5q).length c5q.pageSize * c5q.pageSize ∧
    (pgRows c5s c5q).length = 5 ∧
    (pgMatched c5s c5q).length = 25 ∧
    totalPageOf (pgMatched c5s c5q).length c5q.pageSize = 3 ∧
    (mongoRows c5m c5q).length = 5 ∧
    (mongoMatched c5m c5q).length = 25 ∧
    totalPageOf (mongoMatched c5m c5q).length c5q.pageSize = 3 := by
  have h := c5_list_users_pagination defaultLocalizer c5s c5m c5q "en"
    (by decide) (by decide)
  exact ⟨h.2.2.2.2.2.2.2.1, h.2.2.2.2.2.2.2.2.2.1, h.2.2.2.2.2.2.2.2.2.2.2.1,
    by decide, by decide, by decide, by decide, by decide, by decide⟩

/-- Stored PostgreSQL user for C1, the only row of the store, id 1. -/
def c1User : PGUser :=
  ⟨1, "alice@example.com", "alice", ⟨0, "secret1"⟩, "Alice", "Doe",
   "user", true, 0, 0, none⟩

/-- PostgreSQL store for C1. -/
def c1State : PGState := ⟨[c1User], 2⟩

/-- Token the service itself issues for that user at login/registration
(PostgreSQL branch: GenerateToken receives the numeric user.ID). -/
def c1Token : SignedToken :=
  (generateToken "k" (.num 1) "alice@example.com" "alice" "user" 0).1

/-- Stored Mongo user for C1. -/
def c1MongoUser : MongoUser :=
  ⟨oidFromNat 0, "alice@example.com", "alice", ⟨0, "secret1"⟩, "Alice",
   "Doe", "user", true, 0, 0⟩

/-- Mongo store for C1. -/
def c1MongoState : MongoState := ⟨[c1MongoUser], 1⟩

/-- Token the service issues in the MongoDB branch: GenerateToken
receives the hex string rendering of the ObjectID. -/
def c1MongoToken : SignedToken :=
  (generateToken "k" (.str (oidFromNat 0)) "alice@example.com" "alice"
    "user" 0).1

/-- C1: at a concrete store holding exactly the user of the token, the
document variant answers 200 with the public fields of that user as the
claim states, but the relational variant answers 404 although the user
exists: the numeric user_id claim set by the JWT middleware is read
back with GetString (empty string on a non-string value), the ParseUint
error is discarded, and the handler looks up id 0. -/
theorem c1_get_profile_token_identity :
    c1User ∈ c1State.users ∧ c1User.id = 1 ∧
    c1Token.claims.userId = .num 1 ∧
    validateToken "k" c1Token 3600 = some c1Token.claims ∧
    ginGetString c1Token.claims.userId = "" ∧
    parseUint32Go "" = 0 ∧
    getProfileViaToken defaultLocalizer "k" ⟨some c1State, none⟩ c1Token
        3600 "en" =
      some ⟨404, errorResponse (defaultLocalizer.get "en" "user_not_found")
        "User not found"⟩ ∧
    getProfileViaToken defaultLocalizer "k" ⟨none, some c1MongoState⟩
        c1MongoToken 3600 "en" =
      some ⟨200, successResponse "Profile retrieved successfully"
        (.user (mongoUserInfo c1MongoUser))⟩ := by
  refine ⟨by decide, rfl, rfl, by decide, rfl, by decide, by decide, by decide⟩

end GoApi
